import Mathlib

/-!
Verification development for the eBay variant stock scraper
(`ebay_stock_scraper.py`).  The Python source is shallowly embedded:

* Python `str` values are Lean `String`s; the handful of Python string
  operations the scraper uses (`strip`, `lower`, `split`, `split(sep)`,
  `replace`, substring containment via `in`, `join`) are modelled by
  executable functions over `List Char` below (ASCII case folding, the
  four ASCII whitespace characters — the feed data the scraper handles is
  ASCII).
* Spreadsheet cells are `Option String` (`None`/NaN becomes `none`); the
  pandas header normalisation that produces the canonical column set is
  the out-of-scope collaborator of the spec and sits outside the model.
* Network fetches, Playwright page state and raised exceptions are
  passed in as explicit environment values (one outcome per attempt).
-/

/-- Python `needle.isPrefixOf`-style check used by `containsSub`. -/
def subAt (needle hay : List Char) : Bool :=
  needle.isPrefixOf hay

/-- `listHasSub needle hay` models Python `needle in hay` on strings:
`true` iff `needle` occurs contiguously inside `hay` (an empty needle
always matches). -/
def listHasSub (needle : List Char) : List Char → Bool
  | [] => needle.isEmpty
  | h :: hs => subAt needle (h :: hs) || listHasSub needle hs

/-- `containsSub hay needle` models the Python expression `needle in hay`. -/
def containsSub (hay needle : String) : Bool :=
  listHasSub needle.data hay.data

/-- Python `str.strip()` (ASCII whitespace). -/
def pyStrip (s : String) : String :=
  ⟨((s.data.dropWhile Char.isWhitespace).reverse.dropWhile Char.isWhitespace).reverse⟩

/-- Python `str.lower()` (ASCII case folding). -/
def pyLower (s : String) : String :=
  ⟨s.data.map Char.toLower⟩

/-- Accumulator pass behind `pySplitWs`: `w` is the current word, reversed. -/
def splitWsChars (w : List Char) : List Char → List String
  | [] => if w.isEmpty then [] else [⟨w.reverse⟩]
  | c :: cs =>
    if c.isWhitespace then
      if w.isEmpty then splitWsChars [] cs else ⟨w.reverse⟩ :: splitWsChars [] cs
    else splitWsChars (c :: w) cs

/-- Python `str.split()` with no argument: split on whitespace runs,
dropping empty fields. -/
def pySplitWs (s : String) : List String :=
  splitWsChars [] s.data

/-- Character-list pass behind `takeBefore`. -/
def takeBeforeList (sep : List Char) : List Char → List Char
  | [] => []
  | c :: cs => if subAt sep (c :: cs) then [] else c :: takeBeforeList sep cs

/-- Python `s.split(sep)[0]` for a non-empty separator: the prefix of `s`
before the first occurrence of `sep` (all of `s` if `sep` is absent). -/
def takeBefore (s sep : String) : String :=
  ⟨takeBeforeList sep.data s.data⟩

/-- Character-list pass behind `pyReplace`: replaces each non-overlapping
occurrence of `pat`, scanning left to right, as Python `str.replace`.
The fuel argument (list length at the top call) keeps the recursion
structural; every step consumes at least one character, so the fuel never
runs out on a top-level call. -/
def replaceFuel (pat repl : List Char) : Nat → List Char → List Char
  | _, [] => []
  | 0, rest => rest
  | Nat.succ fuel, c :: cs =>
    if subAt pat (c :: cs) && !pat.isEmpty then
      repl ++ replaceFuel pat repl fuel (cs.drop (pat.length - 1))
    else
      c :: replaceFuel pat repl fuel cs

/-- Python `s.replace(pat, repl)` for a non-empty pattern. -/
def pyReplace (s pat repl : String) : String :=
  ⟨replaceFuel pat.data repl.data s.data.length s.data⟩

/-- Python truthiness of an optional string: `None` and `""` are falsy. -/
def optTruthy : Option String → Bool
  | none => false
  | some s => !(s == "")

/-- Python `a or b` on optional strings: `a` when truthy, otherwise `b`. -/
def pyOr (a b : Option String) : Option String :=
  if optTruthy a then a else b

/-- `normalize_label` (scraper line 489): lower-case and collapse internal
whitespace. -/
def normalize_label (text : String) : String :=
  String.intercalate " " (pySplitWs (pyLower text))

/-- `extract_base_colour` (scraper lines 493-501): strip the trailing
`" - <suffix>"` if the text contains `" - "`, then lower-case. -/
def extract_base_colour (colour_text : String) : String :=
  let text := pyStrip colour_text
  if containsSub text " - " then pyLower (pyStrip (takeBefore text " - "))
  else pyLower text

/-- `extract_base_size` (scraper lines 504-513): drop everything from the
first `(` on, remove the UI adornments, strip and lower-case. -/
def extract_base_size (size_text : String) : String :=
  let text := pyStrip size_text
  let text := if containsSub text "(" then pyStrip (takeBefore text "(") else text
  let text := pyStrip (pyReplace (pyReplace text "Most popular" "") "selected" "")
  pyLower text

/-- `option_matches` (scraper lines 516-550): three-tier match — substring,
then colour-base comparison when either side contains `" - "`, then
size-base comparison when the option text looks size-shaped. -/
def option_matches (option_text target : String) : Bool :=
  if containsSub (normalize_label option_text) (normalize_label target) then true
  else if (containsSub option_text " - " || containsSub target " - ")
      && (extract_base_colour option_text == extract_base_colour target
          || containsSub (extract_base_colour option_text) (extract_base_colour target)
          || containsSub (extract_base_colour target) (extract_base_colour option_text)) then
    true
  else if (containsSub (pyLower option_text) "cm"
          || (containsSub (pyLower option_text) "x" && option_text.data.any Char.isDigit))
      && (extract_base_size option_text == extract_base_size target
          || containsSub (extract_base_size option_text) (extract_base_size target)
          || (pyReplace (extract_base_size option_text) " " ""
              == pyReplace (extract_base_size target) " " "")) then
    true
  else false

/-- `interpret_option_state` (scraper lines 553-566): three independent
disabled signals, each overwriting the reason; returns
`(disabled, reason)`. -/
def interpret_option_state (option_text : String) (class_attr aria_disabled : Option String) :
    Bool × String :=
  let text_lower := pyLower option_text
  let st : Bool × String := (false, "")
  let st :=
    if optTruthy class_attr && containsSub (class_attr.getD "") "listbox__option--disabled" then
      (true, "Option marked out of stock (disabled class)")
    else st
  let st :=
    if aria_disabled == some "true" then
      (true, "Option marked out of stock (aria-disabled=true)")
    else st
  let st :=
    if containsSub text_lower "out of stock" then (true, "Label indicates out of stock")
    else st
  st

/-- `clean_cell_value` (scraper lines 202-214) restricted to string cells:
a spreadsheet cell is `none` (empty/NaN) or `some` text; stripped text
that is empty becomes `none`. -/
def clean_cell_value : Option String → Option String
  | none => none
  | some s => let t := pyStrip s; if t == "" then none else some t

/-- Model of `urlparse(u)._replace(query="", fragment="").geturl()`
(scraper line 248): everything before the first `?` or `#`. -/
def stripQueryFragment (url : String) : String :=
  ⟨url.data.takeWhile (fun c => !(c == '?') && !(c == '#'))⟩

/-- `VariantRecord` (scraper lines 118-132). -/
structure VariantRecord where
  row_index : Nat
  excel_row : Nat
  source_url : String
  sr_no : Option String
  stock_name : Option String
  variation : Option String
  size : Option String
  dimensions : Option String
  sheet_stock_status : Option String
  item_number : Option String
  listing_url : String
deriving Repr, DecidableEq

/-- Split on a single character, keeping empty fields, as Python
`str.split(sep)` for a one-character separator; `w` is the current field,
reversed. -/
def splitCharAux (sep : Char) (w : List Char) : List Char → List String
  | [] => [⟨w.reverse⟩]
  | c :: cs => if c == sep then ⟨w.reverse⟩ :: splitCharAux sep [] cs else splitCharAux sep (c :: w) cs

/-- Python `s.split(sep)` for a one-character separator. -/
def splitChar (sep : Char) (s : String) : List String :=
  splitCharAux sep [] s.data

/-- The suffix after the first occurrence of `sep`, when `sep` occurs. -/
def afterList (sep : List Char) : List Char → Option (List Char)
  | [] => if sep.isEmpty then some [] else none
  | c :: cs => if subAt sep (c :: cs) then some ((c :: cs).drop sep.length) else afterList sep cs

/-- Model of `urlparse(u).path` for the URL shapes the scraper meets:
drop the query/fragment, then, when a `scheme://authority` prefix is
present, keep from the first `/` after the authority (empty if none). -/
def urlPath (u : String) : String :=
  let core : String := ⟨u.data.takeWhile (fun c => !(c == '?') && !(c == '#'))⟩
  match afterList "://".data core.data with
  | some rest => ⟨rest.dropWhile (fun c => !(c == '/'))⟩
  | none => core

/-- `VariantRecord.base_item_id` (scraper lines 134-143): last slash-field
of the path that is all digits. -/
def base_item_id (r : VariantRecord) : Option String :=
  if r.listing_url == "" then none
  else
    let path := urlPath r.listing_url
    let stripped : String := ⟨(path.data.reverse.dropWhile (fun c => c == '/')).reverse⟩
    (splitChar '/' stripped).reverse.find? (fun part => !(part == "") && part.data.all Char.isDigit)

/-- Model of `urlparse(u).query`: between the first `?` and the fragment. -/
def urlQuery (u : String) : String :=
  match afterList "?".data (takeBefore u "#").data with
  | some q => ⟨q⟩
  | none => ""

/-- `VariantRecord.variation_id` (scraper lines 145-152): first `var`
value of the source URL's query string (`parse_qs` modelled for plain
`&`-separated `key=value` pairs; blank values are dropped as `parse_qs`
does, percent-decoding is not modelled). -/
def variation_id (r : VariantRecord) : Option String :=
  ((splitChar '&' (urlQuery r.source_url)).filterMap (fun kv =>
      match splitChar '=' kv with
      | k :: v :: rest =>
        let value := String.intercalate "=" (v :: rest)
        if k == "var" && !(value == "") then some value else none
      | _ => none)).head?

/-- One raw feed row after the out-of-scope pandas header normalisation
(scraper lines 216-240): the canonical column set, with `listing_url`
already `notna`-filtered and stripped. -/
structure RawRow where
  listing_url : String
  variation : Option String
  pack_type : Option String
  dimensions : Option String
  sheet_stock_status : Option String
  stock_name : Option String
  sr_no : Option String
  item_number : Option String
deriving Repr, DecidableEq

/-- Colour words recognised inside product names (scraper line 263). -/
def colour_words : List String :=
  ["cream", "black", "grey", "gray", "brown", "beige", "blue", "green", "white", "red",
   "silver", "dark"]

/-- The product-name colour extraction loop (scraper lines 261-270, also
reused at lines 296-307): first whitespace token that is a colour word
starts the candidate; a `" - "` inside the remainder switches to the
`"<base> - Greekey"` convention. -/
def extractFromParts : List String → Option String
  | [] => none
  | p :: rest =>
    if colour_words.contains (pyLower p) then
      let remaining := String.intercalate " " (p :: rest)
      if containsSub remaining " - " then
        some (pyStrip (takeBefore remaining " - ") ++ " - Greekey")
      else some (pyStrip remaining)
    else extractFromParts rest

/-- Colour extraction from a product name (scraper lines 261-270). -/
def extractColourFromName (product_name : String) : Option String :=
  extractFromParts (pySplitWs product_name)

/-- Size normalisation used by the backward scan (scraper lines 284-285):
`.lower().replace(" cm", "").replace("cm", "").strip()`. -/
def sizeClean (s : String) : String :=
  pyStrip (pyReplace (pyReplace (pyLower s) " cm" "") "cm" "")

/-- The backward-inheritance scan over previously built records (scraper
lines 278-312), walking the history newest-first and stopping at the
first record with a different `listing_url`.  The scraper also computes a
`current_size_clean` value it never reads; that dead computation is not
modelled. -/
def scanBack (base_url : String) : List VariantRecord → Option String
  | [] => none
  | prev :: rest =>
    if prev.listing_url == base_url then
      if optTruthy prev.variation && containsSub (prev.variation.getD "") " - Greekey" then
        let prev_size_clean := if optTruthy prev.size then sizeClean (prev.size.getD "") else ""
        if !(prev_size_clean == "") then prev.variation
        else scanBack base_url rest
      else if optTruthy prev.stock_name then
        match extractColourFromName (prev.stock_name.getD "") with
        | some c => some c
        | none => scanBack base_url rest
      else scanBack base_url rest
    else none

/-- Placeholder strings of the size-resolution step (scraper line 315). -/
def size_placeholders : List String := ["", "n/a", "na", "select", "rug"]

/-- The size-resolution steps of the builder (scraper lines 314-318):
`dimensions or pack_type`, a placeholder check that assigns
`dimensions` back, then the `pack_type` fallback for a falsy value. -/
def resolve_size (dimensions pack_type : Option String) : Option String :=
  let size_value := pyOr dimensions pack_type
  let size_value :=
    if optTruthy size_value
        && size_placeholders.contains (pyLower (pyStrip (size_value.getD ""))) then
      dimensions
    else size_value
  if optTruthy size_value then size_value else pack_type

/-- Lookup in the running `last_variation_by_listing` table, modelled as
an association list with the most recent binding first. -/
def dictGet (d : List (String × String)) (k : String) : Option String :=
  (d.find? (fun p => p.1 == k)).map (fun p => p.2)

/-- The colour-resolution steps of one builder iteration (scraper lines
249-312): explicit cell (recorded in the running table), else the running
table, else product-name extraction, else the backward scan (the scan is
guarded by a truthy working size, line 275-276). -/
def resolveColour (dict : List (String × String)) (history : List VariantRecord)
    (base_url : String) (variation_cell product_name dimensions pack_type : Option String) :
    Option String × List (String × String) :=
  let colour0 := clean_cell_value variation_cell
  let dict1 := if optTruthy colour0 then (base_url, colour0.getD "") :: dict else dict
  let colour1 := if optTruthy colour0 then colour0 else dictGet dict base_url
  let colour2 :=
    if !optTruthy colour1 && optTruthy product_name then
      match extractColourFromName (product_name.getD "") with
      | some c => some c
      | none => colour1
    else colour1
  let colour3 :=
    if !optTruthy colour2 then
      if optTruthy (pyOr dimensions pack_type) then
        match scanBack base_url history.reverse with
        | some c => some c
        | none => colour2
      else colour2
    else colour2
  (colour3, dict1)

/-- Loop state of `load_variants_from_excel` (scraper lines 242-244):
1-based row counter, the full history, the running colour table, and the
emitted records. -/
structure LoadState where
  idx : Nat
  dict : List (String × String)
  history : List VariantRecord
  records : List VariantRecord
deriving Repr

/-- The `VariantRecord` built by one iteration of the builder loop
(scraper lines 319-331). -/
def buildRecord (st : LoadState) (row : RawRow) : VariantRecord :=
  let base_url := stripQueryFragment row.listing_url
  let pack_type := clean_cell_value row.pack_type
  let dimensions := clean_cell_value row.dimensions
  { row_index := st.idx
    excel_row := st.idx + 2
    source_url := row.listing_url
    sr_no := row.sr_no
    stock_name := clean_cell_value row.stock_name
    variation := (resolveColour st.dict st.history base_url row.variation
        (clean_cell_value row.stock_name) dimensions pack_type).1
    size := resolve_size dimensions pack_type
    dimensions := dimensions
    sheet_stock_status := clean_cell_value row.sheet_stock_status
    item_number := if optTruthy row.item_number then row.item_number else none
    listing_url := base_url }

/-- One iteration of the builder loop (scraper lines 245-335). -/
def loadStep (start_row : Nat) (st : LoadState) (row : RawRow) : LoadState :=
  { idx := st.idx + 1
    dict := (resolveColour st.dict st.history (stripQueryFragment row.listing_url) row.variation
        (clean_cell_value row.stock_name) (clean_cell_value row.dimensions)
        (clean_cell_value row.pack_type)).2
    history := st.history ++ [buildRecord st row]
    records := if st.idx < start_row then st.records else st.records ++ [buildRecord st row] }

/-- The builder loop with the `limit` early exit (scraper lines 333-337). -/
def loadGo (start_row : Nat) (limit : Option Nat) : LoadState → List RawRow → LoadState
  | st, [] => st
  | st, row :: rest =>
    let st1 := loadStep start_row st row
    match limit with
    | some l => if l ≤ st1.records.length then st1 else loadGo start_row limit st1 rest
    | none => loadGo start_row limit st1 rest

/-- `load_variants_from_excel` (scraper lines 176-338) from the point
where the canonical rows exist: the record-building loop.  Reading the
workbook and normalising headers is the spec's out-of-scope collaborator. -/
def load_variants_from_excel (rows : List RawRow) (start_row : Nat := 1)
    (limit : Option Nat := none) : List VariantRecord :=
  let start_row := if start_row < 1 then 1 else start_row
  (loadGo start_row limit { idx := 1, dict := [], history := [], records := [] } rows).records

/-- Reference accumulator for the running colour table: after a list of
rows, the accumulator holds the cleaned colour of the most recent row
whose key matches and whose colour cell is explicitly present. -/
def lastExplicitAux (key : String) (acc : Option String) : List RawRow → Option String
  | [] => acc
  | row :: rest =>
    lastExplicitAux key
      (if stripQueryFragment row.listing_url == key then
        match clean_cell_value row.variation with
        | some c => some c
        | none => acc
      else acc) rest

/-- The most recent explicitly present colour among a feed's rows whose
`listingUrl` equals `key` — the reference value of the running
`last_variation_by_listing` table entry. -/
def lastExplicitColour (rows : List RawRow) (key : String) : Option String :=
  lastExplicitAux key none rows

/-- JSON values as far as the scraper inspects them: strings, objects
(association lists, first binding wins as for a Python dict), arrays, and
anything else. -/
inductive JsonVal where
  | str : String → JsonVal
  | obj : List (String × JsonVal) → JsonVal
  | arr : List JsonVal → JsonVal
  | other : JsonVal

/-- `AVAILABILITY_STRINGS` (scraper lines 108-115), in insertion order —
Python dicts iterate in insertion order, which tier 3 of
`detect_availability` relies on. -/
def AVAILABILITY_STRINGS : List (String × String) :=
  [("http://schema.org/InStock", "IN_STOCK"),
   ("http://schema.org/OutOfStock", "OUT_OF_STOCK"),
   ("InStock", "IN_STOCK"),
   ("OutOfStock", "OUT_OF_STOCK"),
   ("AVAILABLE", "IN_STOCK"),
   ("UNAVAILABLE", "OUT_OF_STOCK")]

/-- `AVAILABILITY_STRINGS.get(value)`. -/
def availLookup (s : String) : Option String :=
  (AVAILABILITY_STRINGS.find? (fun p => p.1 == s)).map (fun p => p.2)

/-- Python `data.get(key)` on a JSON object. -/
def jsonGet (data : List (String × JsonVal)) (key : String) : Option JsonVal :=
  (data.find? (fun p => p.1 == key)).map (fun p => p.2)

/-- One key probe of `parse_availability_from_json`: the value must be a
string and a known vocabulary token. -/
def availFromValue : Option JsonVal → Option String
  | some (JsonVal.str s) => availLookup s
  | _ => none

/-- `parse_availability_from_json` (scraper lines 369-384): the
`availability` then `availabilityType` keys, then a nested
`offers.availability`. -/
def parse_availability_from_json (data : List (String × JsonVal)) : Option String :=
  match availFromValue (jsonGet data "availability") with
  | some v => some v
  | none =>
    match availFromValue (jsonGet data "availabilityType") with
    | some v => some v
    | none =>
      match jsonGet data "offers" with
      | some (JsonVal.obj offers) => availFromValue (jsonGet offers "availability")
      | _ => none

/-- List-payload arm of the structured-data walk (scraper lines 400-405). -/
def availFromEntries : List JsonVal → Option String
  | [] => none
  | JsonVal.obj d :: rest =>
    match parse_availability_from_json d with
    | some a => some a
    | none => availFromEntries rest
  | _ :: rest => availFromEntries rest

/-- The walk over all `application/ld+json` scripts (scraper lines
391-405); `none` entries are payloads whose `json.loads` failed and are
skipped. -/
def availFromScripts : List (Option JsonVal) → Option String
  | [] => none
  | some (JsonVal.obj d) :: rest =>
    match parse_availability_from_json d with
    | some a => some a
    | none => availFromScripts rest
  | some (JsonVal.arr entries) :: rest =>
    match availFromEntries entries with
    | some a => some a
    | none => availFromScripts rest
  | _ :: rest => availFromScripts rest

/-- A fetched document as `detect_availability` sees it: the parsed
`application/ld+json` payloads (`none` for malformed ones), the rendered
text (`soup.get_text(" ", strip=True)`), and the raw markup.  The HTML
and JSON parsing itself is done by external libraries and sits at the
model boundary. -/
structure Doc where
  ldjson : List (Option JsonVal)
  rendered : String
  raw : String

/-- `detect_availability` (scraper lines 387-420): structured data, then
rendered-text markers, then the raw-text vocabulary scan behind an
`"availability":` guard, else `UNKNOWN`. -/
def detect_availability (doc : Doc) : String :=
  match availFromScripts doc.ldjson with
  | some a => a
  | none =>
    let normalized := pyLower doc.rendered
    if containsSub normalized "out of stock" then "OUT_OF_STOCK"
    else if containsSub normalized "in stock" || containsSub normalized "last one" then "IN_STOCK"
    else if containsSub doc.raw "\"availability\":" then
      match (AVAILABILITY_STRINGS.find? (fun p => containsSub doc.raw p.1)).map (fun p => p.2) with
      | some status => status
      | none => "UNKNOWN"
    else "UNKNOWN"

/-- Outcome of one static fetch attempt (`fetch_listing_html`, scraper
lines 357-366, plus `detect_availability`): a document, a raised
`ChallengeDetected`, or any other exception (non-200 status, network
failure); the message is the exception's `str`. -/
inductive StaticAttempt where
  | ok : Doc → StaticAttempt
  | challenge : String → StaticAttempt
  | fetchFailure : String → StaticAttempt

/-- The retry loop of `process_variants_requests` (scraper lines 439-462):
`remaining` starts at `max_retries + 1`, `attempts` counts the attempts
made; returns the final availability, error message and attempt count. -/
def requestsLoop (env : Nat → StaticAttempt) :
    Nat → Nat → String → Option String → String × Option String × Nat
  | 0, attempts, avail, err => (avail, err, attempts)
  | Nat.succ rem, attempts, _, _ =>
    match env (attempts + 1) with
    | StaticAttempt.ok doc => (detect_availability doc, none, attempts + 1)
    | StaticAttempt.challenge m => requestsLoop env rem (attempts + 1) "BLOCKED" (some m)
    | StaticAttempt.fetchFailure m => requestsLoop env rem (attempts + 1) "ERROR" (some m)

/-- One output row of the static pipeline (scraper lines 464-481). -/
structure StaticRow where
  row_index : Nat
  excel_row : Nat
  sheet_sr_no : Option String
  stock_name : Option String
  variation : Option String
  size : Option String
  dimensions : Option String
  sheet_stock_status : Option String
  detected_status : String
  item_number : Option String
  variation_id : Option String
  listing_url : String
  source_url : String
  error : Option String
deriving Repr, DecidableEq

/-- Row assembly of the static pipeline (scraper lines 464-481). -/
def mkStaticRow (record : VariantRecord) (availability : String) (error : Option String) :
    StaticRow :=
  { row_index := record.row_index
    excel_row := record.excel_row
    sheet_sr_no := record.sr_no
    stock_name := record.stock_name
    variation := record.variation
    size := record.size
    dimensions := record.dimensions
    sheet_stock_status := record.sheet_stock_status
    detected_status := availability
    item_number := if optTruthy record.item_number then record.item_number else base_item_id record
    variation_id := variation_id record
    listing_url := record.listing_url
    source_url := record.source_url
    error := error }

/-- The per-descriptor iteration of `process_variants_requests` (scraper
lines 430-484); `pos` is the descriptor's 0-based position and
`env pos k` is the outcome of its `k`-th attempt (1-based). -/
def processRequestsGo (env : Nat → Nat → StaticAttempt) (max_retries : Nat) (pos : Nat) :
    List VariantRecord → List StaticRow
  | [] => []
  | r :: rest =>
    let out := requestsLoop (env pos) (max_retries + 1) 0 "BLOCKED" none
    mkStaticRow r out.1 out.2.1 :: processRequestsGo env max_retries (pos + 1) rest

/-- `process_variants_requests` (scraper lines 423-486): the static
pipeline over all records; the fetch/detect outcomes arrive through
`env`. -/
def process_variants_requests (records : List VariantRecord) (env : Nat → Nat → StaticAttempt)
    (max_retries : Nat) : List StaticRow :=
  processRequestsGo env max_retries 0 records

/-- One option of a discovered variant group, with the attributes the
scraper reads: visible text, the `data-sku-value-name` attribute, the
`class` and `aria-disabled` attributes (button path), the `disabled`
attribute (native-select path), and whether a click on it succeeds
within the timeout (button path). -/
structure ModelOption where
  text : String
  dataSkuValue : Option String
  classAttr : Option String
  ariaDisabled : Option String
  hasDisabledAttr : Bool
  clickOk : Bool
deriving Repr, DecidableEq

/-- One variant group as `collect_variant_groups` (scraper lines 569-624)
returns it: its label, its discovery kind (`"vim"`, `"msku"` or
`"select"`), whether the popup's trigger button exists, and its options
(the scraper's fallback chain for locating the options container is part
of the page environment). -/
structure ModelGroup where
  label : String
  gtype : String
  hasButton : Bool
  options : List ModelOption
deriving Repr, DecidableEq

/-- `GROUP_KEYWORDS` (scraper lines 627-630), as `dict.get(dimension, [])`. -/
def GROUP_KEYWORDS (dimension : String) : List String :=
  if dimension == "size" then ["size", "length", "dimensions"]
  else if dimension == "variation" then ["colour", "color", "design", "style", "pattern"]
  else []

/-- First group index not in `used` whose group satisfies `p`; `i` is the
index of the list's head. -/
def findIdxFrom (p : ModelGroup → Bool) (used : List Nat) (i : Nat) :
    List ModelGroup → Option Nat
  | [] => none
  | g :: rest => if !used.contains i && p g then some i else findIdxFrom p used (i + 1) rest

/-- `find_group_for_dimension` (scraper lines 633-645): first unused group
whose normalised label contains a keyword of the dimension, else the
first unused group. -/
def find_group_for_dimension (groups : List ModelGroup) (dimension : String) (used : List Nat) :
    Option Nat :=
  let keywords := GROUP_KEYWORDS dimension
  match findIdxFrom (fun g => keywords.any (fun k => containsSub (normalize_label g.label) k))
      used 0 groups with
  | some i => some i
  | none => findIdxFrom (fun _ => true) used 0 groups

/-- The option-choosing passes of the button path of
`select_option_from_group` (scraper lines 720-740): first a pass matching
on a truthy `data-sku-value-name`, then a pass matching on visible text. -/
def chooseOption (g : ModelGroup) (target : String) : Option ModelOption :=
  match g.options.find? (fun o =>
      optTruthy o.dataSkuValue && option_matches (o.dataSkuValue.getD "") target) with
  | some o => some o
  | none => g.options.find? (fun o => option_matches o.text target)

/-- `select_option_from_group` (scraper lines 648-768) as a decision on
the modelled group: native-select path (first matching option, rejected
when its `disabled` attribute is present), and button path (missing
trigger button, the two matching passes, the `interpret_option_state`
disablement check with its `reason or "Option disabled"` default, and the
click timeout).  Scrolls and settle waits carry no decision and are not
modelled. -/
def select_option_from_group (g : ModelGroup) (target_value : String) : Bool × Option String :=
  if g.gtype == "select" then
    match g.options.find? (fun o => option_matches o.text target_value) with
    | some o =>
      if o.hasDisabledAttr then (false, some "Option disabled") else (true, none)
    | none => (false, some ("Variant value '" ++ target_value ++ "' not found"))
  else
    if !g.hasButton then (false, some "Variant selector button missing")
    else
      match chooseOption g target_value with
      | none => (false, some ("Variant value '" ++ target_value ++ "' not found"))
      | some o =>
        let ds := interpret_option_state o.text o.classAttr o.ariaDisabled
        if ds.1 then (false, some (if ds.2 == "" then "Option disabled" else ds.2))
        else if o.clickOk then (true, none)
        else (false, some ("Timeout clicking option '" ++ target_value
                           ++ "' - element not interactable"))

/-- The failure classification of the chromium selection loop (scraper
lines 948-952): a reason mentioning disablement means `OUT_OF_STOCK`,
anything else `ERROR`. -/
def classifyFailure (failure_reason : Option String) : String :=
  let reason_lower := pyLower (failure_reason.getD "")
  if containsSub reason_lower "out of stock" || containsSub reason_lower "disabled"
      || containsSub reason_lower "aria-disabled" then "OUT_OF_STOCK"
  else "ERROR"

/-- Python's stable `.sort(key=lambda x: x[0])` on the at-most-two
dimension entries (scraper line 936). -/
def sortDims : List (Nat × String × String) → List (Nat × String × String)
  | [a, b] => if b.1 < a.1 then [b, a] else [a, b]
  | l => l

/-- The dimension-to-group assignment of `process_variants_chromium`
(scraper lines 911-937): each requested dimension is resolved by
`find_group_for_dimension` against an empty used set, then the entries
are sorted by group index into page order. -/
def buildDims (groups : List ModelGroup) (r : VariantRecord) : List (Nat × String × String) :=
  let d1 : List (Nat × String × String) :=
    if optTruthy r.variation then
      match find_group_for_dimension groups "variation" [] with
      | some i => [(i, "variation", r.variation.getD "")]
      | none => []
    else []
  let d2 : List (Nat × String × String) :=
    if optTruthy r.size then
      match find_group_for_dimension groups "size" [] with
      | some i => [(i, "size", r.size.getD "")]
      | none => []
    else []
  sortDims (d1 ++ d2)

/-- The group-selection loop (scraper lines 939-956): already-used group
indices are skipped, a failed selection is classified and short-circuits
the rest; `attempted` collects the group indices on which a selection was
actually attempted.  Returns `(attempted, none)` on success and
`(attempted, some (availability, failure_reason))` on failure. -/
def selLoop (groups : List ModelGroup) :
    List (Nat × String × String) → List Nat → List Nat →
    List Nat × Option (String × Option String)
  | [], _, attempted => (attempted, none)
  | d :: rest, used, attempted =>
    if used.contains d.1 then selLoop groups rest used attempted
    else
      let g := groups.getD d.1 { label := "", gtype := "", hasButton := false, options := [] }
      let res := select_option_from_group g d.2.2
      if res.1 then selLoop groups rest (d.1 :: used) (attempted ++ [d.1])
      else (attempted ++ [d.1], some (classifyFailure res.2, res.2))

/-- `evaluate_availability` (scraper lines 771-813) on the probed
availability text; `none` stands for a missing signal and also for the
two-strikes script-evaluation failure, both of which return `IN_STOCK`
with no text. -/
def evaluate_availability (availability_text : Option String) : String × Option String :=
  match availability_text with
  | some t =>
    if !(t == "") then
      let lowered := pyLower t
      if containsSub lowered "out of stock" || containsSub lowered "unavailable" then
        ("OUT_OF_STOCK", some t)
      else if containsSub lowered "add to basket disabled" then ("OUT_OF_STOCK", some t)
      else ("IN_STOCK", some t)
    else ("IN_STOCK", some t)
  | none => ("IN_STOCK", none)

/-- One loaded listing page as the interactive engine sees it: whether
`detect_challenge` (scraper lines 816-825) fires, the discovered variant
groups in page order, and the availability text the evaluation script
probes. -/
structure ModelPage where
  challenge : Bool
  groups : List ModelGroup
  availabilityText : Option String
deriving Repr

/-- Result of the non-challenge part of one chromium attempt. -/
structure ChromVisit where
  availability : String
  errorDetail : Option String
  attempted : List Nat
  selectionFailed : Bool
deriving Repr

/-- One chromium attempt after the challenge check (scraper lines
907-975): group discovery, dimension assignment, the selection loop, and
— only when every selection succeeded — the availability evaluation with
its `OUT_OF_STOCK`-only error detail. -/
def chromiumVisit (page : ModelPage) (r : VariantRecord) : ChromVisit :=
  let dims := buildDims page.groups r
  let sl := selLoop page.groups dims [] []
  match sl.2 with
  | some fr =>
    { availability := fr.1, errorDetail := fr.2, attempted := sl.1, selectionFailed := true }
  | none =>
    let ev := evaluate_availability page.availabilityText
    { availability := ev.1
      errorDetail := if ev.1 == "OUT_OF_STOCK" && optTruthy ev.2 then ev.2 else none
      attempted := sl.1
      selectionFailed := false }

/-- Outcome of one chromium attempt as the retry loop sees it: a loaded
page (possibly a challenge page), or an exception raised while loading
(timeout or otherwise, scraper lines 981-990). -/
inductive ChromAttempt where
  | visit : ModelPage → ChromAttempt
  | pageFailure : String → ChromAttempt

/-- The chromium retry loop (scraper lines 888-990): a challenge records
`BLOCKED` and retries, an exception records `ERROR` and retries, and a
completed visit — whether its selection failed or its evaluation ran —
leaves the loop with the visit's result. -/
def chromiumLoop (env : Nat → ChromAttempt) (r : VariantRecord) :
    Nat → Nat → String → Option String → String × Option String
  | 0, _, avail, err => (avail, err)
  | Nat.succ rem, attempts, _, _ =>
    match env (attempts + 1) with
    | ChromAttempt.pageFailure m => chromiumLoop env r rem (attempts + 1) "ERROR" (some m)
    | ChromAttempt.visit page =>
      if page.challenge then
        chromiumLoop env r rem (attempts + 1) "BLOCKED" (some "Bot challenge page encountered")
      else
        let v := chromiumVisit page r
        (v.availability, v.errorDetail)

/-- One output row of the chromium pipeline (scraper lines 991-1007);
unlike the static pipeline it carries no `source_url` column. -/
structure ChromiumRow where
  row_index : Nat
  excel_row : Nat
  sheet_sr_no : Option String
  stock_name : Option String
  variation : Option String
  size : Option String
  dimensions : Option String
  sheet_stock_status : Option String
  detected_status : String
  item_number : Option String
  variation_id : Option String
  listing_url : String
  error : Option String
deriving Repr, DecidableEq

/-- Row assembly of the chromium pipeline (scraper lines 991-1007). -/
def mkChromiumRow (record : VariantRecord) (availability : String) (error : Option String) :
    ChromiumRow :=
  { row_index := record.row_index
    excel_row := record.excel_row
    sheet_sr_no := record.sr_no
    stock_name := record.stock_name
    variation := record.variation
    size := record.size
    dimensions := record.dimensions
    sheet_stock_status := record.sheet_stock_status
    detected_status := availability
    item_number := if optTruthy record.item_number then record.item_number else base_item_id record
    variation_id := variation_id record
    listing_url := record.listing_url
    error := error }

/-- The per-descriptor iteration of `process_variants_chromium` (scraper
lines 886-1009). -/
def processChromiumGo (env : Nat → Nat → ChromAttempt) (max_retries : Nat) (pos : Nat) :
    List VariantRecord → List ChromiumRow
  | [] => []
  | r :: rest =>
    let out := chromiumLoop (env pos) r (max_retries + 1) 0 "BLOCKED" none
    mkChromiumRow r out.1 out.2 :: processChromiumGo env max_retries (pos + 1) rest

/-- `process_variants_chromium` (scraper lines 828-1016) from the point
where the browser context exists: the per-record retry loop over the
modelled page attempts. -/
def process_variants_chromium (records : List VariantRecord) (env : Nat → Nat → ChromAttempt)
    (max_retries : Nat) : List ChromiumRow :=
  processChromiumGo env max_retries 0 records

/-! Concrete inputs used by the claim theorems, their witnesses and
counterexamples. -/

/-- Feed row with a placeholder `dimensions` value and a concrete
`pack_type` value. -/
def c7row : RawRow :=
  { listing_url := "https://www.ebay.co.uk/itm/254663431954"
    variation := some "Black - Greekey"
    pack_type := some "60 x 110 cm"
    dimensions := some "n/a"
    sheet_stock_status := none
    stock_name := none
    sr_no := none
    item_number := none }

/-- A document whose only availability evidence is a raw
`"availability": "UNAVAILABLE"` token (no parseable structured data, no
rendered-text markers). -/
def c8doc : Doc :=
  { ldjson := []
    rendered := "\"availability\": \"UNAVAILABLE\""
    raw := "\"availability\": \"UNAVAILABLE\"" }

/-- Two variant groups neither of whose labels contains any dimension
keyword. -/
def c6groups : List ModelGroup :=
  [{ label := "Main Option", gtype := "vim", hasButton := true, options := [] },
   { label := "Other Option", gtype := "vim", hasButton := true, options := [] }]

/-- A descriptor requesting both a colour and a size. -/
def c6rec : VariantRecord :=
  { row_index := 1
    excel_row := 3
    source_url := "https://www.ebay.co.uk/itm/2?var=0"
    sr_no := none
    stock_name := none
    variation := some "Red"
    size := some "60 x 110 cm"
    dimensions := some "60 x 110 cm"
    sheet_stock_status := none
    item_number := none
    listing_url := "https://www.ebay.co.uk/itm/2" }

/-- A colour option whose visible label carries the out-of-stock marker. -/
def c2opt : ModelOption :=
  { text := "GREEN CREAM (out of stock)", dataSkuValue := none, classAttr := none,
    ariaDisabled := none, hasDisabledAttr := false, clickOk := true }

/-- A colour group holding only the disabled option. -/
def c2colour : ModelGroup :=
  { label := "Colour", gtype := "vim", hasButton := true, options := [c2opt] }

/-- A size group after the colour group in page order. -/
def c2size : ModelGroup :=
  { label := "Size", gtype := "vim", hasButton := true, options := [] }

/-- A non-challenge page carrying the two groups. -/
def c2page : ModelPage :=
  { challenge := false, groups := [c2colour, c2size], availabilityText := none }

/-- The descriptor whose colour matches the disabled option. -/
def c2rec : VariantRecord :=
  { row_index := 2
    excel_row := 4
    source_url := "https://www.ebay.co.uk/itm/363486576357?var=3"
    sr_no := none
    stock_name := none
    variation := some "Green Cream"
    size := some "40 x 60 cm"
    dimensions := some "40 x 60 cm"
    sheet_stock_status := none
    item_number := none
    listing_url := "https://www.ebay.co.uk/itm/363486576357" }

/-- A descriptor for the static-pipeline runs. -/
def c3rec : VariantRecord :=
  { row_index := 1
    excel_row := 3
    source_url := "https://www.ebay.co.uk/itm/363486576357"
    sr_no := none
    stock_name := none
    variation := some "Green Cream - Greekey"
    size := some "40 x 60 cm"
    dimensions := some "40 x 60 cm"
    sheet_stock_status := none
    item_number := none
    listing_url := "https://www.ebay.co.uk/itm/363486576357" }

/-- A fetch environment in which every attempt hits the bot challenge. -/
def c3env : Nat → Nat → StaticAttempt :=
  fun _ _ =>
    StaticAttempt.challenge "Bot challenge detected for https://www.ebay.co.uk/itm/363486576357"

/-- A descriptor for the invariant runs. -/
def c9rec : VariantRecord :=
  { row_index := 1
    excel_row := 3
    source_url := "https://www.ebay.co.uk/itm/166212566918"
    sr_no := none
    stock_name := none
    variation := some "Beige - Gel Back 59"
    size := some "60 x 110 cm"
    dimensions := some "60 x 110 cm"
    sheet_stock_status := none
    item_number := none
    listing_url := "https://www.ebay.co.uk/itm/166212566918" }

/-- A fetch environment whose first attempt yields a document with no
availability evidence at all. -/
def c9env : Nat → Nat → StaticAttempt :=
  fun _ _ => StaticAttempt.ok { ldjson := [], rendered := "", raw := "" }

/-- An all-challenge fetch environment. -/
def c9wenv : Nat → Nat → StaticAttempt :=
  fun _ _ => StaticAttempt.challenge "Bot challenge detected"

/-- The row the all-challenge run produces. -/
def c9wrow : StaticRow := mkStaticRow c9rec "BLOCKED" (some "Bot challenge detected")

/-- A chromium environment whose every attempt raises a navigation error. -/
def c9cenv : Nat → Nat → ChromAttempt := fun _ _ => ChromAttempt.pageFailure "net::ERR_TIMED_OUT"

/-- The row the failing chromium run produces. -/
def c9crow : ChromiumRow := mkChromiumRow c9rec "ERROR" (some "net::ERR_TIMED_OUT")

/-- A feed prefix in which rows of two listings are interleaved and the
listing `itm/77` states its colour twice. -/
def c10pre : List RawRow :=
  [{ listing_url := "https://www.ebay.co.uk/itm/77?var=1", variation := some "Teal - Greekey",
     pack_type := none, dimensions := some "40 x 60 cm", sheet_stock_status := none,
     stock_name := none, sr_no := none, item_number := none },
   { listing_url := "https://www.ebay.co.uk/itm/88", variation := some "Red",
     pack_type := none, dimensions := some "50 x 80 cm", sheet_stock_status := none,
     stock_name := none, sr_no := none, item_number := none },
   { listing_url := "https://www.ebay.co.uk/itm/77?var=2", variation := some "Teal Blue - Greekey",
     pack_type := none, dimensions := some "60 x 110 cm", sheet_stock_status := none,
     stock_name := none, sr_no := none, item_number := none },
   { listing_url := "https://www.ebay.co.uk/itm/88", variation := none,
     pack_type := none, dimensions := some "80 x 150 cm", sheet_stock_status := none,
     stock_name := none, sr_no := none, item_number := none }]

/-- A colour-less row of listing `itm/77` appended after the prefix. -/
def c10row : RawRow :=
  { listing_url := "https://www.ebay.co.uk/itm/77?var=3", variation := none,
    pack_type := none, dimensions := some "80 x 150 cm", sheet_stock_status := none,
    stock_name := none, sr_no := none, item_number := none }

/-- First feed row of the C1 witness: explicit colour, variant query 1. -/
def c1r1 : RawRow :=
  { listing_url := "https://www.ebay.co.uk/itm/363486576357?var=1",
    variation := some "Green Cream - Greekey", pack_type := none,
    dimensions := some "40 x 60 cm", sheet_stock_status := none, stock_name := none,
    sr_no := none, item_number := none }

/-- Second feed row of the C1 witness: empty colour, variant query 2. -/
def c1r2 : RawRow :=
  { listing_url := "https://www.ebay.co.uk/itm/363486576357?var=2", variation := none,
    pack_type := none, dimensions := some "60 x 110 cm", sheet_stock_status := none,
    stock_name := none, sr_no := none, item_number := none }

/-- Third feed row of the C1 witness: empty colour, variant query 3. -/
def c1r3 : RawRow :=
  { listing_url := "https://www.ebay.co.uk/itm/363486576357?var=3", variation := none,
    pack_type := none, dimensions := some "80 x 150 cm", sheet_stock_status := none,
    stock_name := none, sr_no := none, item_number := none }

/-! Helper lemmas. -/

/-- A value of the vocabulary table is one of the two standardised states. -/
theorem avail_pair_mem (pr : String × String) (h : pr ∈ AVAILABILITY_STRINGS) :
    pr.2 = "IN_STOCK" ∨ pr.2 = "OUT_OF_STOCK" := by
  fin_cases h <;> simp

/-- A successful vocabulary lookup yields one of the two standardised states. -/
theorem availLookup_mem (s v : String) (h : availLookup s = some v) :
    v = "IN_STOCK" ∨ v = "OUT_OF_STOCK" := by
  unfold availLookup at h
  cases hf : AVAILABILITY_STRINGS.find? (fun p => p.1 == s) with
  | none => rw [hf] at h; exact absurd h (by simp)
  | some pr =>
    rw [hf] at h
    simp only [Option.map_some', Option.some.injEq] at h
    subst h
    exact avail_pair_mem pr (List.mem_of_find?_eq_some hf)

/-- A successful key probe yields one of the two standardised states. -/
theorem availFromValue_mem (jv : Option JsonVal) (v : String) (h : availFromValue jv = some v) :
    v = "IN_STOCK" ∨ v = "OUT_OF_STOCK" := by
  cases jv with
  | none => simp [availFromValue] at h
  | some j =>
    cases j with
    | str s => exact availLookup_mem s v h
    | obj d => simp [availFromValue] at h
    | arr l => simp [availFromValue] at h
    | other => simp [availFromValue] at h

/-- `parse_availability_from_json` only ever yields the two standardised
states. -/
theorem parse_avail_mem (data : List (String × JsonVal)) (v : String)
    (h : parse_availability_from_json data = some v) :
    v = "IN_STOCK" ∨ v = "OUT_OF_STOCK" := by
  unfold parse_availability_from_json at h
  split at h
  · rename_i heq
    cases h
    exact availFromValue_mem _ _ heq
  · split at h
    · rename_i heq
      cases h
      exact availFromValue_mem _ _ heq
    · split at h
      · exact availFromValue_mem _ _ h
      · simp at h

/-- The list-payload walk only ever yields the two standardised states. -/
theorem availFromEntries_mem (l : List JsonVal) (v : String)
    (h : availFromEntries l = some v) : v = "IN_STOCK" ∨ v = "OUT_OF_STOCK" := by
  induction l with
  | nil =>
    rw [show availFromEntries [] = none from rfl] at h
    exact absurd h (by simp)
  | cons j rest ih =>
    cases j with
    | obj d =>
      rw [show availFromEntries (JsonVal.obj d :: rest)
          = (match parse_availability_from_json d with
             | some a => some a
             | none => availFromEntries rest) from rfl] at h
      split at h
      · rename_i heq
        cases h
        exact parse_avail_mem _ _ heq
      · exact ih h
    | str s =>
      rw [show availFromEntries (JsonVal.str s :: rest) = availFromEntries rest from rfl] at h
      exact ih h
    | arr ll =>
      rw [show availFromEntries (JsonVal.arr ll :: rest) = availFromEntries rest from rfl] at h
      exact ih h
    | other =>
      rw [show availFromEntries (JsonVal.other :: rest) = availFromEntries rest from rfl] at h
      exact ih h

/-- The structured-data walk only ever yields the two standardised states. -/
theorem availFromScripts_mem (l : List (Option JsonVal)) (v : String)
    (h : availFromScripts l = some v) : v = "IN_STOCK" ∨ v = "OUT_OF_STOCK" := by
  induction l with
  | nil =>
    rw [show availFromScripts [] = none from rfl] at h
    exact absurd h (by simp)
  | cons j rest ih =>
    cases j with
    | none =>
      rw [show availFromScripts (none :: rest) = availFromScripts rest from rfl] at h
      exact ih h
    | some jj =>
      cases jj with
      | obj d =>
        rw [show availFromScripts (some (JsonVal.obj d) :: rest)
            = (match parse_availability_from_json d with
               | some a => some a
               | none => availFromScripts rest) from rfl] at h
        split at h
        · rename_i heq
          cases h
          exact parse_avail_mem _ _ heq
        · exact ih h
      | arr entries =>
        rw [show availFromScripts (some (JsonVal.arr entries) :: rest)
            = (match availFromEntries entries with
               | some a => some a
               | none => availFromScripts rest) from rfl] at h
        split at h
        · rename_i heq
          cases h
          exact availFromEntries_mem _ _ heq
        · exact ih h
      | str s =>
        rw [show availFromScripts (some (JsonVal.str s) :: rest)
            = availFromScripts rest from rfl] at h
        exact ih h
      | other =>
        rw [show availFromScripts (some JsonVal.other :: rest)
            = availFromScripts rest from rfl] at h
        exact ih h

/-- `detect_availability` always lands in one of its three clean states. -/
theorem detect_availability_mem (doc : Doc) :
    detect_availability doc = "IN_STOCK" ∨ detect_availability doc = "OUT_OF_STOCK"
      ∨ detect_availability doc = "UNKNOWN" := by
  unfold detect_availability
  cases hscr : availFromScripts doc.ldjson with
  | some a => rcases availFromScripts_mem _ _ hscr with h | h <;> simp [hscr, h]
  | none =>
    by_cases h1 : containsSub (pyLower doc.rendered) "out of stock" = true
    · simp [hscr, h1]
    · by_cases h2 : (containsSub (pyLower doc.rendered) "in stock"
          || containsSub (pyLower doc.rendered) "last one") = true
      · simp [hscr, h1, h2]
      · by_cases h3 : containsSub doc.raw "\"availability\":" = true
        · cases hfind : AVAILABILITY_STRINGS.find? (fun p => containsSub doc.raw p.1) with
          | none => simp [hscr, h1, h2, h3, hfind]
          | some pr =>
            rcases avail_pair_mem pr (List.mem_of_find?_eq_some hfind) with h | h <;>
              simp [hscr, h1, h2, h3, hfind, h]
        · simp [hscr, h1, h2, h3]

/-- An all-challenge environment leaves the static retry loop at
`BLOCKED` after consuming its entire attempt budget. -/
theorem requestsLoop_all_challenge (env : Nat → StaticAttempt)
    (h : ∀ k, ∃ m, env k = StaticAttempt.challenge m) :
    ∀ (rem att : Nat) (a : String) (e : Option String), 1 ≤ rem →
      (requestsLoop env rem att a e).1 = "BLOCKED"
        ∧ (requestsLoop env rem att a e).2.2 = att + rem := by
  intro rem
  induction rem with
  | zero => intro att a e hrem; exact absurd hrem (by omega)
  | succ rr ih =>
    intro att a e _
    obtain ⟨m, hm⟩ := h (att + 1)
    rcases Nat.eq_zero_or_pos rr with h0 | hpos
    · subst h0
      simp [requestsLoop, hm]
    · have hrec := ih (att + 1) "BLOCKED" (some m) hpos
      simp only [requestsLoop, hm]
      exact ⟨hrec.1, by rw [hrec.2]; omega⟩

/-- The static retry loop either broke out of a successful detection with
no error, or kept a failure state together with its message. -/
theorem requestsLoop_shape (env : Nat → StaticAttempt) :
    ∀ (rem att : Nat) (a : String) (e : Option String), 1 ≤ rem →
      (∃ doc, (requestsLoop env rem att a e).1 = detect_availability doc
          ∧ (requestsLoop env rem att a e).2.1 = none)
        ∨ (((requestsLoop env rem att a e).1 = "BLOCKED"
              ∨ (requestsLoop env rem att a e).1 = "ERROR")
            ∧ ∃ m, (requestsLoop env rem att a e).2.1 = some m) := by
  intro rem
  induction rem with
  | zero => intro att a e hrem; exact absurd hrem (by omega)
  | succ rr ih =>
    intro att a e _
    rcases Nat.eq_zero_or_pos rr with h0 | hpos
    · subst h0
      cases henv : env (att + 1) with
      | ok doc =>
        exact Or.inl ⟨doc, by simp [requestsLoop, henv], by simp [requestsLoop, henv]⟩
      | challenge m =>
        exact Or.inr ⟨Or.inl (by simp [requestsLoop, henv]), m, by simp [requestsLoop, henv]⟩
      | fetchFailure m =>
        exact Or.inr ⟨Or.inr (by simp [requestsLoop, henv]), m, by simp [requestsLoop, henv]⟩
    · cases henv : env (att + 1) with
      | ok doc =>
        exact Or.inl ⟨doc, by simp [requestsLoop, henv], by simp [requestsLoop, henv]⟩
      | challenge m =>
        simp only [requestsLoop, henv]
        exact ih (att + 1) "BLOCKED" (some m) hpos
      | fetchFailure m =>
        simp only [requestsLoop, henv]
        exact ih (att + 1) "ERROR" (some m) hpos

/-- The static pipeline emits exactly one row per record. -/
theorem processRequestsGo_length (env : Nat → Nat → StaticAttempt) (mr : Nat) :
    ∀ (l : List VariantRecord) (pos : Nat), (processRequestsGo env mr pos l).length = l.length := by
  intro l
  induction l with
  | nil => intro pos; rfl
  | cons r rest ih => intro pos; simp [processRequestsGo, ih]

/-- The `j`-th row of the static pipeline is the `j`-th record's retry
result. -/
theorem processRequestsGo_getElem (env : Nat → Nat → StaticAttempt) (mr : Nat) :
    ∀ (l : List VariantRecord) (pos j : Nat),
      (processRequestsGo env mr pos l)[j]?
        = (l[j]?).map (fun r => mkStaticRow r
            (requestsLoop (env (pos + j)) (mr + 1) 0 "BLOCKED" none).1
            (requestsLoop (env (pos + j)) (mr + 1) 0 "BLOCKED" none).2.1) := by
  intro l
  induction l with
  | nil => intro pos j; simp [processRequestsGo]
  | cons r rest ih =>
    intro pos j
    cases j with
    | zero => simp [processRequestsGo]
    | succ jj =>
      have harith : pos + 1 + jj = pos + (jj + 1) := by omega
      rw [← harith]
      simp only [processRequestsGo, List.getElem?_cons_succ]
      exact ih (pos + 1) jj

/-- Every static-pipeline row is a retry result of some record. -/
theorem processRequestsGo_mem (env : Nat → Nat → StaticAttempt) (mr : Nat) :
    ∀ (l : List VariantRecord) (pos : Nat) (row : StaticRow),
      row ∈ processRequestsGo env mr pos l →
      ∃ p r, row = mkStaticRow r (requestsLoop (env p) (mr + 1) 0 "BLOCKED" none).1
          (requestsLoop (env p) (mr + 1) 0 "BLOCKED" none).2.1 := by
  intro l
  induction l with
  | nil => intro pos row h; simp [processRequestsGo] at h
  | cons r rest ih =>
    intro pos row h
    simp only [processRequestsGo, List.mem_cons] at h
    rcases h with h | h
    · exact ⟨pos, r, h⟩
    · exact ih (pos + 1) row h

/-- When interpretation says disabled, the reason is one of the three
fixed messages. -/
theorem interpret_disabled_reason (t : String) (c a : Option String)
    (h : (interpret_option_state t c a).1 = true) :
    (interpret_option_state t c a).2 = "Option marked out of stock (disabled class)"
      ∨ (interpret_option_state t c a).2 = "Option marked out of stock (aria-disabled=true)"
      ∨ (interpret_option_state t c a).2 = "Label indicates out of stock" := by
  simp only [interpret_option_state] at h ⊢
  split
  · simp
  · split
    · simp
    · split
      · simp
      · simp_all

/-- A failed selection loop carries the classification of its own
failure reason. -/
theorem selLoop_fail_shape (groups : List ModelGroup) :
    ∀ (dims : List (Nat × String × String)) (used att : List Nat)
      (fr : String × Option String),
      (selLoop groups dims used att).2 = some fr → fr.1 = classifyFailure fr.2 := by
  intro dims
  induction dims with
  | nil => intro used att fr h; simp [selLoop] at h
  | cons d rest ih =>
    intro used att fr h
    simp only [selLoop] at h
    split at h
    · exact ih _ _ _ h
    · split at h
      · exact ih _ _ _ h
      · simp only at h
        cases h
        rfl

/-- A matched-but-disabled option makes the button-path selection fail
with a non-empty reason that classifies as `OUT_OF_STOCK`. -/
theorem select_disabled (g : ModelGroup) (cv : String) (o : ModelOption)
    (hsel : (g.gtype == "select") = false) (hbtn : g.hasButton = true)
    (hchoose : chooseOption g cv = some o)
    (hdis : (interpret_option_state o.text o.classAttr o.ariaDisabled).1 = true) :
    ∃ s, select_option_from_group g cv = (false, some s)
      ∧ s ≠ "" ∧ classifyFailure (some s) = "OUT_OF_STOCK" := by
  refine ⟨(interpret_option_state o.text o.classAttr o.ariaDisabled).2, ?_, ?_, ?_⟩
  · rcases interpret_disabled_reason o.text o.classAttr o.ariaDisabled hdis with h | h | h <;>
      simp [select_option_from_group, hsel, hbtn, hchoose, hdis, h]
  · rcases interpret_disabled_reason o.text o.classAttr o.ariaDisabled hdis with h | h | h <;>
      rw [h] <;> decide
  · rcases interpret_disabled_reason o.text o.classAttr o.ariaDisabled hdis with h | h | h <;>
      rw [h] <;> decide

/-- The failure classification only ever yields the two failure states. -/
theorem classifyFailure_mem (fr : Option String) :
    classifyFailure fr = "OUT_OF_STOCK" ∨ classifyFailure fr = "ERROR" := by
  by_cases h : (containsSub (pyLower (fr.getD "")) "out of stock"
      || containsSub (pyLower (fr.getD "")) "disabled"
      || containsSub (pyLower (fr.getD "")) "aria-disabled") = true
  · left; simp [classifyFailure, h]
  · right; simp [classifyFailure, h]

/-- The availability evaluation only ever yields the two clean states. -/
theorem evaluate_availability_mem (t : Option String) :
    (evaluate_availability t).1 = "OUT_OF_STOCK" ∨ (evaluate_availability t).1 = "IN_STOCK" := by
  unfold evaluate_availability
  cases t with
  | none => exact Or.inr rfl
  | some s =>
    by_cases h0 : (s == "") = true
    · simp [h0]
    · by_cases h1 : (containsSub (pyLower s) "out of stock"
          || containsSub (pyLower s) "unavailable") = true
      · simp [h0, h1]
      · by_cases h2 : containsSub (pyLower s) "add to basket disabled" = true
        · simp [h0, h1, h2]
        · simp [h0, h1, h2]

/-- A chromium visit's availability is one of three states. -/
theorem chromiumVisit_avail_mem (page : ModelPage) (r : VariantRecord) :
    (chromiumVisit page r).availability = "IN_STOCK"
      ∨ (chromiumVisit page r).availability = "OUT_OF_STOCK"
      ∨ (chromiumVisit page r).availability = "ERROR" := by
  simp only [chromiumVisit]
  cases heq : (selLoop page.groups (buildDims page.groups r) [] []).2 with
  | some fr =>
    have hshape := selLoop_fail_shape page.groups (buildDims page.groups r) [] [] fr heq
    rcases classifyFailure_mem fr.2 with h | h <;> simp [heq, hshape, h]
  | none =>
    rcases evaluate_availability_mem page.availabilityText with h | h <;> simp [heq, h]

/-- The chromium retry loop keeps its availability among the five
enumerated states. -/
theorem chromiumLoop_avail_mem (env : Nat → ChromAttempt) (r : VariantRecord) :
    ∀ (rem att : Nat) (a : String) (e : Option String),
      (a = "IN_STOCK" ∨ a = "OUT_OF_STOCK" ∨ a = "BLOCKED" ∨ a = "ERROR" ∨ a = "UNKNOWN") →
      ((chromiumLoop env r rem att a e).1 = "IN_STOCK"
        ∨ (chromiumLoop env r rem att a e).1 = "OUT_OF_STOCK"
        ∨ (chromiumLoop env r rem att a e).1 = "BLOCKED"
        ∨ (chromiumLoop env r rem att a e).1 = "ERROR"
        ∨ (chromiumLoop env r rem att a e).1 = "UNKNOWN") := by
  intro rem
  induction rem with
  | zero => intro att a e ha; simpa [chromiumLoop] using ha
  | succ rr ih =>
    intro att a e _
    cases henv : env (att + 1) with
    | pageFailure m =>
      simp only [chromiumLoop, henv]
      exact ih (att + 1) "ERROR" (some m) (by simp)
    | visit page =>
      simp only [chromiumLoop, henv]
      split
      · exact ih (att + 1) "BLOCKED" (some "Bot challenge page encountered") (by simp)
      · rcases chromiumVisit_avail_mem page r with h | h | h <;> simp [h]

/-- Every chromium-pipeline row is a retry result of some record. -/
theorem processChromiumGo_mem (env : Nat → Nat → ChromAttempt) (mr : Nat) :
    ∀ (l : List VariantRecord) (pos : Nat) (row : ChromiumRow),
      row ∈ processChromiumGo env mr pos l →
      ∃ p r, row = mkChromiumRow r (chromiumLoop (env p) r (mr + 1) 0 "BLOCKED" none).1
          (chromiumLoop (env p) r (mr + 1) 0 "BLOCKED" none).2 := by
  intro l
  induction l with
  | nil => intro pos row h; simp [processChromiumGo] at h
  | cons r rest ih =>
    intro pos row h
    simp only [processChromiumGo, List.mem_cons] at h
    rcases h with h | h
    · exact ⟨pos, r, h⟩
    · exact ih (pos + 1) row h

/-- A failed selection always reports a concrete reason string. -/
theorem select_fail_reason (g : ModelGroup) (t : String)
    (h : (select_option_from_group g t).1 = false) :
    ∃ s, (select_option_from_group g t).2 = some s := by
  unfold select_option_from_group at h ⊢
  by_cases h1 : (g.gtype == "select") = true
  · simp only [h1, if_true] at h ⊢
    cases hf : g.options.find? (fun o => option_matches o.text t) with
    | none => simp [hf]
    | some o =>
      simp only [hf] at h ⊢
      by_cases hd : o.hasDisabledAttr = true
      · simp [hd]
      · simp [hd] at h
  · simp only [h1] at h ⊢
    by_cases hb : g.hasButton = true
    · simp only [hb] at h ⊢
      cases hc : chooseOption g t with
      | none => simp [hc]
      | some o =>
        simp only [hc] at h ⊢
        by_cases hds : (interpret_option_state o.text o.classAttr o.ariaDisabled).1 = true
        · simp [hds]
        · by_cases hck : o.clickOk = true
          · simp [hds, hck] at h
          · simp [hds, hck]
    · simp [hb]

/-- A failed selection loop carries a concrete reason string. -/
theorem selLoop_fail_reason (groups : List ModelGroup) :
    ∀ (dims : List (Nat × String × String)) (used att : List Nat)
      (fr : String × Option String),
      (selLoop groups dims used att).2 = some fr → ∃ s, fr.2 = some s := by
  intro dims
  induction dims with
  | nil => intro used att fr h; simp [selLoop] at h
  | cons d rest ih =>
    intro used att fr h
    simp only [selLoop] at h
    split at h
    · exact ih _ _ _ h
    · rename_i hu
      split at h
      · exact ih _ _ _ h
      · rename_i hok
        simp only at h
        cases h
        exact select_fail_reason _ _ (by simpa using hok)

/-- An `OUT_OF_STOCK` evaluation always carries a truthy availability
text (the function only answers `OUT_OF_STOCK` inside the non-empty-text
branches). -/
theorem evaluate_oos_detail (t : Option String)
    (h : (evaluate_availability t).1 = "OUT_OF_STOCK") :
    optTruthy (evaluate_availability t).2 = true := by
  unfold evaluate_availability at h ⊢
  cases t with
  | none => simp at h
  | some s =>
    by_cases h0 : (s == "") = true
    · simp [h0] at h
    · by_cases hs1 : (containsSub (pyLower s) "out of stock"
          || containsSub (pyLower s) "unavailable") = true
      · simp [h0, hs1, optTruthy]
      · by_cases hs2 : containsSub (pyLower s) "add to basket disabled" = true
        · simp [h0, hs1, hs2, optTruthy]
        · simp [h0, hs1, hs2] at h

/-- A chromium visit carries an error detail exactly when its
availability is not `IN_STOCK`: failed selections keep their reason, and
a completed evaluation keeps its message exactly for `OUT_OF_STOCK`. -/
theorem chromiumVisit_err_iff (page : ModelPage) (r : VariantRecord) :
    (chromiumVisit page r).errorDetail.isSome = true
      ↔ ¬ (chromiumVisit page r).availability = "IN_STOCK" := by
  simp only [chromiumVisit]
  cases heq : (selLoop page.groups (buildDims page.groups r) [] []).2 with
  | some fr =>
    have hshape := selLoop_fail_shape page.groups (buildDims page.groups r) [] [] fr heq
    obtain ⟨s, hs⟩ := selLoop_fail_reason page.groups (buildDims page.groups r) [] [] fr heq
    rw [hs] at hshape
    rcases classifyFailure_mem (some s) with h | h <;>
      simp [heq, hshape, hs, h]
  | none =>
    rcases evaluate_availability_mem page.availabilityText with h | h
    · have hdet := evaluate_oos_detail page.availabilityText h
      have hsome : (evaluate_availability page.availabilityText).2.isSome = true := by
        cases hd : (evaluate_availability page.availabilityText).2 with
        | none => rw [hd] at hdet; simp [optTruthy] at hdet
        | some s => rfl
      simp [heq, h, hdet, hsome]
    · simp [heq, h]

/-- The chromium retry loop keeps the error-detail biconditional once at
least one attempt runs. -/
theorem chromiumLoop_err_iff (env : Nat → ChromAttempt) (r : VariantRecord) :
    ∀ (rem att : Nat) (a : String) (e : Option String), 1 ≤ rem →
      ((chromiumLoop env r rem att a e).2.isSome = true
        ↔ ¬ (chromiumLoop env r rem att a e).1 = "IN_STOCK") := by
  intro rem
  induction rem with
  | zero => intro att a e hrem; exact absurd hrem (by omega)
  | succ rr ih =>
    intro att a e _
    rcases Nat.eq_zero_or_pos rr with h0 | hpos
    · subst h0
      cases henv : env (att + 1) with
      | pageFailure m => simp [chromiumLoop, henv]
      | visit page =>
        by_cases hch : page.challenge = true
        · simp [chromiumLoop, henv, hch]
        · simp only [chromiumLoop, henv, hch, Bool.false_eq_true, if_false]
          exact chromiumVisit_err_iff page r
    · cases henv : env (att + 1) with
      | pageFailure m =>
        simp only [chromiumLoop, henv]
        exact ih (att + 1) "ERROR" (some m) hpos
      | visit page =>
        by_cases hch : page.challenge = true
        · simp only [chromiumLoop, henv, hch, if_true]
          exact ih (att + 1) "BLOCKED" (some "Bot challenge page encountered") hpos
        · simp only [chromiumLoop, henv, hch, Bool.false_eq_true, if_false]
          exact chromiumVisit_err_iff page r

/-- A predicate false on every group is never found before the fallback. -/
theorem findIdxFrom_none (p : ModelGroup → Bool) (i : Nat) (l : List ModelGroup)
    (h : ∀ g ∈ l, p g = false) : findIdxFrom p [] i l = none := by
  induction l generalizing i with
  | nil => rfl
  | cons g rest ih =>
    simp only [findIdxFrom, List.contains, List.elem_nil, Bool.not_false, Bool.true_and]
    rw [h g (by simp)]
    exact ih (i + 1) (fun g hg => h g (by simp [hg]))

/-- A cleaned cell value is never the empty string. -/
theorem clean_some_ne (x : Option String) (s : String) (h : clean_cell_value x = some s) :
    ¬ s = "" := by
  cases x with
  | none => simp [clean_cell_value] at h
  | some t =>
    simp only [clean_cell_value] at h
    split at h
    · exact absurd h (by simp)
    · rename_i hne
      cases h
      simpa using hne

/-- Table lookup after a single insertion. -/
theorem dictGet_cons (k1 v key : String) (d : List (String × String)) :
    dictGet ((k1, v) :: d) key = if (k1 == key) = true then some v else dictGet d key := by
  by_cases h : (k1 == key) = true <;> simp [dictGet, List.find?, h]

/-- The builder step updates the running colour table exactly when the
row's colour cell cleans to a truthy value. -/
theorem loadStep_dict (sr : Nat) (st : LoadState) (row : RawRow) :
    (loadStep sr st row).dict
      = if optTruthy (clean_cell_value row.variation) = true then
          (stripQueryFragment row.listing_url, (clean_cell_value row.variation).getD "")
            :: st.dict
        else st.dict := rfl

/-- One unfolding of the builder loop with no row limit. -/
theorem loadGo_cons_none (sr : Nat) (st : LoadState) (row : RawRow) (rest : List RawRow) :
    loadGo sr none st (row :: rest) = loadGo sr none (loadStep sr st row) rest := rfl

/-- The running colour table agrees pointwise with the reference
accumulator. -/
theorem loadGo_dict (key : String) :
    ∀ (rows : List RawRow) (st : LoadState),
      dictGet (loadGo 1 none st rows).dict key
        = lastExplicitAux key (dictGet st.dict key) rows := by
  intro rows
  induction rows with
  | nil => intro st; rfl
  | cons row rest ih =>
    intro st
    rw [loadGo_cons_none, ih (loadStep 1 st row), lastExplicitAux]
    congr 1
    rw [loadStep_dict]
    by_cases htr : optTruthy (clean_cell_value row.variation) = true
    · rw [if_pos htr, dictGet_cons]
      cases hcv : clean_cell_value row.variation with
      | none => rw [hcv] at htr; simp [optTruthy] at htr
      | some c =>
        by_cases hk : (stripQueryFragment row.listing_url == key) = true <;> simp [hk]
    · rw [if_neg htr]
      cases hcv : clean_cell_value row.variation with
      | some c =>
        exfalso
        apply htr
        rw [hcv]
        simp [optTruthy, clean_some_ne row.variation c hcv]
      | none => simp

/-- The limitless builder loop distributes over list append. -/
theorem loadGo_append (sr : Nat) :
    ∀ (l1 l2 : List RawRow) (st : LoadState),
      loadGo sr none st (l1 ++ l2) = loadGo sr none (loadGo sr none st l1) l2 := by
  intro l1
  induction l1 with
  | nil => intro l2 st; rfl
  | cons row rest ih =>
    intro l2 st
    rw [List.cons_append, loadGo_cons_none, loadGo_cons_none]
    exact ih l2 (loadStep sr st row)

/-- The row counter advances by one per processed row. -/
theorem loadGo_idx :
    ∀ (rows : List RawRow) (st : LoadState),
      (loadGo 1 none st rows).idx = st.idx + rows.length := by
  intro rows
  induction rows with
  | nil => intro st; rfl
  | cons row rest ih =>
    intro st
    rw [loadGo_cons_none, ih (loadStep 1 st row)]
    simp [loadStep]
    omega

/-- The reference accumulator never yields the empty string when its
seed cannot. -/
theorem lastExplicitAux_ne (key : String) :
    ∀ (rows : List RawRow) (acc : Option String) (c : String),
      (∀ s, acc = some s → ¬ s = "") →
      lastExplicitAux key acc rows = some c → ¬ c = "" := by
  intro rows
  induction rows with
  | nil => intro acc c hacc h; exact hacc c h
  | cons row rest ih =>
    intro acc c hacc h
    rw [lastExplicitAux] at h
    refine ih _ c ?_ h
    intro s hs
    by_cases hk : (stripQueryFragment row.listing_url == key) = true
    · rw [if_pos hk] at hs
      cases hcv : clean_cell_value row.variation with
      | some cc =>
        rw [hcv] at hs
        cases hs
        exact clean_some_ne row.variation s hcv
      | none =>
        rw [hcv] at hs
        exact hacc s hs
    · rw [if_neg hk] at hs
      exact hacc s hs

/-- A row with no cleanable colour of its own adopts a truthy running
table value. -/
theorem resolveColour_adopt (dict : List (String × String)) (history : List VariantRecord)
    (base : String) (vc pn dims pt : Option String) (c : String)
    (h1 : clean_cell_value vc = none) (h2 : dictGet dict base = some c) (h3 : ¬ c = "") :
    (resolveColour dict history base vc pn dims pt).1 = some c := by
  have hct : optTruthy (some c) = true := by simp [optTruthy, h3]
  simp [resolveColour, h1, h2, hct, show optTruthy none = false from rfl]

/-! Claim theorems. -/

/-- C1: for every feed of three rows whose raw source URLs share one
`listingUrl` (equal after query/fragment stripping, so rows may differ in
their variant query parameter), whose first row carries colour
`"Green Cream - Greekey"` and size `"40 x 60 cm"` and whose next two rows
have empty colour cells and sizes `"60 x 110 cm"` and `"80 x 150 cm"`
(all other cells arbitrary), the builder emits three descriptors all
carrying colour `"Green Cream - Greekey"`: the explicit colour is
recorded as the running last-seen colour for the listing and the
colour-less rows adopt it. -/
theorem C1_builder_colour_inheritance (u1 u2 u3 : String)
    (h2 : stripQueryFragment u2 = stripQueryFragment u1)
    (h3 : stripQueryFragment u3 = stripQueryFragment u1)
    (pt1 pt2 pt3 st1 st2 st3 sn1 sn2 sn3 sr1 sr2 sr3 in1 in2 in3 : Option String) :
    (load_variants_from_excel
        [{ listing_url := u1, variation := some "Green Cream - Greekey",
           pack_type := pt1, dimensions := some "40 x 60 cm",
           sheet_stock_status := st1, stock_name := sn1, sr_no := sr1, item_number := in1 },
         { listing_url := u2, variation := none, pack_type := pt2,
           dimensions := some "60 x 110 cm", sheet_stock_status := st2, stock_name := sn2,
           sr_no := sr2, item_number := in2 },
         { listing_url := u3, variation := none, pack_type := pt3,
           dimensions := some "80 x 150 cm", sheet_stock_status := st3, stock_name := sn3,
           sr_no := sr3, item_number := in3 }]).map (fun r => r.variation)
      = [some "Green Cream - Greekey", some "Green Cream - Greekey",
         some "Green Cream - Greekey"] := by
  have hclean : clean_cell_value (some "Green Cream - Greekey")
      = some "Green Cream - Greekey" := by decide
  have hnone : clean_cell_value (none : Option String) = none := rfl
  have htru : optTruthy (some "Green Cream - Greekey") = true := by decide
  have hfal : optTruthy (none : Option String) = false := rfl
  simp [load_variants_from_excel, loadGo, loadStep, buildRecord, resolveColour, hclean, hnone,
    htru, hfal, dictGet, List.find?, h2, h3]

/-- C1 witness: three rows of one listing whose source URLs differ only
in their `var` query parameter all come out with the first row's colour. -/
theorem C1_builder_colour_inheritance_witness :
    (load_variants_from_excel [c1r1, c1r2, c1r3]).map (fun r => r.variation)
      = [some "Green Cream - Greekey", some "Green Cream - Greekey",
         some "Green Cream - Greekey"] :=
  C1_builder_colour_inheritance "https://www.ebay.co.uk/itm/363486576357?var=1"
    "https://www.ebay.co.uk/itm/363486576357?var=2"
    "https://www.ebay.co.uk/itm/363486576357?var=3"
    (by decide) (by decide) none none none none none none none none none none none none
    none none none

/-- C2: in a chromium attempt where both dimensions are requested, the
colour group precedes the size group, and the colour group's matched
option carries a disabled marker, the attempt yields `OUT_OF_STOCK` with
a non-empty error detail and never attempts the size group's selection;
and any selection failure whose reason carries none of the disablement
keywords yields `ERROR` instead. -/
theorem C2_disabled_option_short_circuit :
    (∀ (page : ModelPage) (r : VariantRecord) (ci si : Nat) (g : ModelGroup) (o : ModelOption),
        optTruthy r.variation = true → optTruthy r.size = true →
        find_group_for_dimension page.groups "variation" [] = some ci →
        find_group_for_dimension page.groups "size" [] = some si →
        ci < si →
        page.groups.getD ci { label := "", gtype := "", hasButton := false, options := [] } = g →
        (g.gtype == "select") = false → g.hasButton = true →
        chooseOption g (r.variation.getD "") = some o →
        (interpret_option_state o.text o.classAttr o.ariaDisabled).1 = true →
        (chromiumVisit page r).availability = "OUT_OF_STOCK"
          ∧ (∃ e, (chromiumVisit page r).errorDetail = some e ∧ e ≠ "")
          ∧ si ∉ (chromiumVisit page r).attempted)
      ∧ (∀ (groups : List ModelGroup) (dims : List (Nat × String × String))
          (used att : List Nat) (fr : String × Option String) (rsn : String),
          (selLoop groups dims used att).2 = some fr → fr.2 = some rsn →
          containsSub (pyLower rsn) "out of stock" = false →
          containsSub (pyLower rsn) "disabled" = false →
          containsSub (pyLower rsn) "aria-disabled" = false →
          fr.1 = "ERROR") := by
  constructor
  · intro page r ci si g o hv hs hfv hfs hlt hg hsel hbtn hchoose hdis
    obtain ⟨s, hsf, hsne, hscl⟩ :=
      select_disabled g (r.variation.getD "") o hsel hbtn hchoose hdis
    have hns : ¬ (si < ci) := Nat.lt_asymm hlt
    have hdims : buildDims page.groups r
        = [(ci, "variation", r.variation.getD ""), (si, "size", r.size.getD "")] := by
      simp [buildDims, hv, hs, hfv, hfs, sortDims, hns]
    have hg2 : page.groups[ci]?.getD
        ({ label := "", gtype := "", hasButton := false, options := [] } : ModelGroup) = g := by
      rw [← List.getD_eq_getElem?_getD]
      exact hg
    have hloop : selLoop page.groups (buildDims page.groups r) [] []
        = ([ci], some ("OUT_OF_STOCK", some s)) := by
      rw [hdims, selLoop]
      simp [hg2, hsf, hscl]
    have hvis : chromiumVisit page r
        = { availability := "OUT_OF_STOCK", errorDetail := some s, attempted := [ci],
            selectionFailed := true } := by
      simp [chromiumVisit, hloop]
    refine ⟨by rw [hvis], ⟨s, by rw [hvis], hsne⟩, ?_⟩
    rw [hvis]
    simp only [List.mem_singleton]
    omega
  · intro groups dims used att fr rsn hfail hrsn h1 h2 h3
    rw [selLoop_fail_shape groups dims used att fr hfail, hrsn]
    simp [classifyFailure, h1, h2, h3]

/-- C2 witness: on the concrete page whose colour group's only matching
option is labelled out of stock, the visit is `OUT_OF_STOCK` with a
non-empty detail and the size group (index 1) is never attempted; a
value-not-found failure classifies as `ERROR`. -/
theorem C2_disabled_option_short_circuit_witness :
    ((chromiumVisit c2page c2rec).availability = "OUT_OF_STOCK"
        ∧ (∃ e, (chromiumVisit c2page c2rec).errorDetail = some e ∧ e ≠ "")
        ∧ 1 ∉ (chromiumVisit c2page c2rec).attempted)
      ∧ (("ERROR", some "Variant value 'Zzz' not found") : String × Option String).1
          = "ERROR" :=
  ⟨C2_disabled_option_short_circuit.1 c2page c2rec 0 1 c2colour c2opt (by decide) (by decide)
      (by decide) (by decide) (by decide) rfl (by decide) rfl (by decide) (by decide),
   C2_disabled_option_short_circuit.2 [c2size] [(0, "variation", "Zzz")] [] []
      ("ERROR", some "Variant value 'Zzz' not found") "Variant value 'Zzz' not found"
      (by decide) rfl (by decide) (by decide) (by decide)⟩

/-- C3: when every fetch attempt for descriptor `i` raises
`ChallengeDetected`, the static pipeline emits one row per input record
in input order, makes exactly `1 + maxRetries` attempts for descriptor
`i`, and records `BLOCKED` for it while later descriptors are still
processed. -/
theorem C3_blocked_after_retries_run_continues (records : List VariantRecord)
    (env : Nat → Nat → StaticAttempt) (max_retries : Nat) (i : Nat)
    (hall : ∀ k, ∃ m, env i k = StaticAttempt.challenge m) :
    (process_variants_requests records env max_retries).length = records.length
      ∧ (∀ j : Nat, ((process_variants_requests records env max_retries)[j]?).map
            (fun row => row.row_index) = (records[j]?).map (fun r => r.row_index))
      ∧ (requestsLoop (env i) (max_retries + 1) 0 "BLOCKED" none).2.2 = max_retries + 1
      ∧ (i < records.length →
          ((process_variants_requests records env max_retries)[i]?).map
              (fun row => row.detected_status) = some "BLOCKED") := by
  have hloop := requestsLoop_all_challenge (env i) hall (max_retries + 1) 0 "BLOCKED" none
    (by omega)
  refine ⟨processRequestsGo_length env max_retries records 0, ?_, ?_, ?_⟩
  · intro j
    unfold process_variants_requests
    rw [processRequestsGo_getElem env max_retries records 0 j]
    cases records[j]? <;> simp [mkStaticRow]
  · rw [hloop.2]; omega
  · intro hi
    unfold process_variants_requests
    rw [processRequestsGo_getElem env max_retries records 0 i]
    rw [List.getElem?_eq_getElem hi]
    simp only [Nat.zero_add, Option.map_some]
    simp [mkStaticRow, hloop.1]

/-- C3 witness: a one-record run whose every attempt is challenged, with
retry budget 2, keeps the order contract, uses 3 attempts, and reports
`BLOCKED`. -/
theorem C3_blocked_after_retries_run_continues_witness :
    (process_variants_requests [c3rec] c3env 2).length = [c3rec].length
      ∧ (∀ j : Nat, ((process_variants_requests [c3rec] c3env 2)[j]?).map
            (fun row => row.row_index) = ([c3rec][j]?).map (fun r => r.row_index))
      ∧ (requestsLoop (c3env 0) (2 + 1) 0 "BLOCKED" none).2.2 = 2 + 1
      ∧ (0 < [c3rec].length →
          ((process_variants_requests [c3rec] c3env 2)[0]?).map
              (fun row => row.detected_status) = some "BLOCKED") :=
  C3_blocked_after_retries_run_continues [c3rec] c3env 2 0 (fun _ =>
    ⟨"Bot challenge detected for https://www.ebay.co.uk/itm/363486576357", rfl⟩)

/-- C4: evaluation of `extract_base_colour` at the spec's four reference
inputs.  Only `"Pink - Gel Back 59"` reaches `"pink"`: the function has
no prefix-stripping step, so the three prefixed forms keep their prefix
(lower-cased), contradicting the claim that all four map to `"pink"`. -/
theorem C4_extract_base_colour_eval :
    extract_base_colour "GelBack-Pink" = "gelback-pink"
      ∧ extract_base_colour "Gel Back-Pink" = "gel back-pink"
      ∧ extract_base_colour "GelBack Pink" = "gelback pink"
      ∧ extract_base_colour "Pink - Gel Back 59" = "pink" :=
  ⟨by decide, by decide, by decide, by decide⟩

/-- C5 counterexample: `option_matches` is not insensitive to which
argument is the target — the substring tier only looks for the target
inside the option and the size tier only fires when the option text is
size-shaped, so swapping `"60 x 110 cm"` and `"60"` changes the result. -/
theorem C5_option_matches_asymmetric_cex :
    ¬ (option_matches "60 x 110 cm" "60" = option_matches "60" "60 x 110 cm") := by decide

/-- C5 as amended: order-insensitivity holds for the colour tier — when
either string contains `" - "` and the two base-colour forms are equal,
`option_matches` succeeds in both argument orders. -/
theorem C5_colour_tier_order_insensitive (a b : String)
    (hdash : (containsSub a " - " || containsSub b " - ") = true)
    (hbase : extract_base_colour a = extract_base_colour b) :
    option_matches a b = true ∧ option_matches b a = true := by
  have key : ∀ x y : String, (containsSub x " - " || containsSub y " - ") = true →
      extract_base_colour x = extract_base_colour y → option_matches x y = true := by
    intro x y hd hb
    simp [option_matches, hd, hb]
  exact ⟨key a b hdash hbase, key b a (by rw [Bool.or_comm]; exact hdash) hbase.symm⟩

/-- C5 witness: two colour labels with the same base colour match in both
orders. -/
theorem C5_colour_tier_order_insensitive_witness :
    option_matches "Pink - Gel Back 59" "Pink - MR (41)" = true
      ∧ option_matches "Pink - MR (41)" "Pink - Gel Back 59" = true :=
  C5_colour_tier_order_insensitive "Pink - Gel Back 59" "Pink - MR (41)" (by decide) (by decide)

/-- C6 counterexample: a page with two groups neither of whose labels
carries a dimension keyword assigns both the colour and the size
dimension to group 0 — the two dimensions are not assigned distinct
groups, because both `find_group_for_dimension` calls receive an empty
used set. -/
theorem C6_shared_group_cex :
    c6groups.length = 2
      ∧ buildDims c6groups c6rec = [(0, "variation", "Red"), (0, "size", "60 x 110 cm")] :=
  ⟨by decide, by decide⟩

/-- C6 as amended: each requested dimension is assigned independently
against an empty used set (first group whose normalised label contains a
keyword of the dimension, else the first group overall), so when no label
contains any keyword of either dimension both dimensions are assigned the
first group. -/
theorem C6_independent_assignment (groups : List ModelGroup) (r : VariantRecord)
    (g0 : ModelGroup) (gs : List ModelGroup) (hg : groups = g0 :: gs)
    (hv : optTruthy r.variation = true) (hs : optTruthy r.size = true)
    (hnokw : ∀ g ∈ groups, ∀ kw ∈ GROUP_KEYWORDS "variation" ++ GROUP_KEYWORDS "size",
        containsSub (normalize_label g.label) kw = false) :
    find_group_for_dimension groups "variation" [] = some 0
      ∧ find_group_for_dimension groups "size" [] = some 0
      ∧ buildDims groups r
          = [(0, "variation", r.variation.getD ""), (0, "size", r.size.getD "")] := by
  have hfind : ∀ d : String, d = "variation" ∨ d = "size" →
      find_group_for_dimension groups d [] = some 0 := by
    intro d hd
    have hnone : findIdxFrom
        (fun g => (GROUP_KEYWORDS d).any (fun k => containsSub (normalize_label g.label) k))
        [] 0 groups = none := by
      apply findIdxFrom_none
      intro g hgmem
      have hall : ∀ kw ∈ GROUP_KEYWORDS d, containsSub (normalize_label g.label) kw = false := by
        intro kw hkw
        refine hnokw g hgmem kw ?_
        rcases hd with h | h
        · subst h; exact List.mem_append_left _ hkw
        · subst h; exact List.mem_append_right _ hkw
      rw [List.any_eq_false]
      intro x hx
      simp [hall x hx]
    rw [find_group_for_dimension, hnone]
    subst hg
    rfl
  have h1 := hfind "variation" (Or.inl rfl)
  have h2 := hfind "size" (Or.inr rfl)
  refine ⟨h1, h2, ?_⟩
  simp [buildDims, hv, hs, h1, h2, sortDims]

/-- C6 witness: on the keyword-free two-group page, both dimensions are
assigned group 0. -/
theorem C6_independent_assignment_witness :
    find_group_for_dimension c6groups "variation" [] = some 0
      ∧ find_group_for_dimension c6groups "size" [] = some 0
      ∧ buildDims c6groups c6rec
          = [(0, "variation", c6rec.variation.getD ""), (0, "size", c6rec.size.getD "")] :=
  C6_independent_assignment c6groups c6rec _ _ rfl (by decide) (by decide) (by decide)

/-- C7: evaluation at the failing input — a row whose `dimensions` cell
is the placeholder `"n/a"` and whose `pack_type` cell is a concrete size.
The placeholder branch assigns the `dimensions` value back to itself, so
the resolved size stays `"n/a"` instead of falling back to the other
field as the claim states. -/
theorem C7_placeholder_size_eval :
    resolve_size (some "n/a") (some "60 x 110 cm") = some "n/a"
      ∧ (load_variants_from_excel [c7row]).map (fun r => r.size) = [some "n/a"] :=
  ⟨by decide, by decide⟩

/-- C8: evaluation at the failing input — a document whose raw text holds
`"availability":` together with `"UNAVAILABLE"` and no structured or
rendered-text evidence.  The tier-3 scan walks the vocabulary in
insertion order and `"AVAILABLE"` is a substring of `"UNAVAILABLE"`, so
the scan answers `IN_STOCK`, not the `OUT_OF_STOCK` the vocabulary table
itself assigns to `"UNAVAILABLE"`. -/
theorem C8_unavailable_scan_eval :
    containsSub c8doc.raw "\"availability\":" = true
      ∧ containsSub c8doc.raw "UNAVAILABLE" = true
      ∧ containsSub c8doc.raw "InStock" = false
      ∧ detect_availability c8doc = "IN_STOCK" :=
  ⟨by decide, by decide, by decide, by decide⟩

/-- C9 counterexample: a static run that fetches a document with no
availability evidence yields a row with status `UNKNOWN` and a `none`
error detail — the status is not a clean `IN_STOCK`/`OUT_OF_STOCK`
determination, yet no error detail is present, refuting the claimed
"present iff not clean IN/OUT" biconditional. -/
theorem C9_unknown_without_detail_cex :
    (process_variants_requests [c9rec] c9env 0).map
        (fun row => (row.detected_status, row.error))
      = [("UNKNOWN", (none : Option String))]
      ∧ ¬ ("UNKNOWN" = "IN_STOCK" ∨ "UNKNOWN" = "OUT_OF_STOCK") :=
  ⟨by decide, by decide⟩

/-- C9 as amended: every emitted row's status is one of the five
enumerated values in both pipelines; the error detail is present in the
static pipeline iff the status is `BLOCKED` or `ERROR` (so a clean
`UNKNOWN` carries none), and in the interactive pipeline iff the status
is not `IN_STOCK` (so a clean `OUT_OF_STOCK` determination carries the
availability message as its error detail). -/
theorem C9_status_error_invariant :
    (∀ (records : List VariantRecord) (env : Nat → Nat → StaticAttempt) (mr : Nat)
        (row : StaticRow), row ∈ process_variants_requests records env mr →
        ((row.detected_status = "IN_STOCK" ∨ row.detected_status = "OUT_OF_STOCK"
            ∨ row.detected_status = "BLOCKED" ∨ row.detected_status = "ERROR"
            ∨ row.detected_status = "UNKNOWN")
          ∧ (row.error.isSome
              ↔ (row.detected_status = "BLOCKED" ∨ row.detected_status = "ERROR"))))
      ∧ (∀ (records : List VariantRecord) (env : Nat → Nat → ChromAttempt) (mr : Nat)
          (row : ChromiumRow), row ∈ process_variants_chromium records env mr →
          ((row.detected_status = "IN_STOCK" ∨ row.detected_status = "OUT_OF_STOCK"
            ∨ row.detected_status = "BLOCKED" ∨ row.detected_status = "ERROR"
            ∨ row.detected_status = "UNKNOWN")
          ∧ (row.error.isSome ↔ ¬ row.detected_status = "IN_STOCK"))) := by
  constructor
  · intro records env mr row hmem
    obtain ⟨p, r, hrow⟩ := processRequestsGo_mem env mr records 0 row hmem
    subst hrow
    simp only [show ∀ (rr : VariantRecord) (a : String) (b : Option String),
        (mkStaticRow rr a b).detected_status = a from fun _ _ _ => rfl,
      show ∀ (rr : VariantRecord) (a : String) (b : Option String),
        (mkStaticRow rr a b).error = b from fun _ _ _ => rfl]
    rcases requestsLoop_shape (env p) (mr + 1) 0 "BLOCKED" none (by omega) with
      ⟨doc, hav, herr⟩ | ⟨hav, m, herr⟩
    · rcases detect_availability_mem doc with h | h | h <;> rw [hav, herr, h] <;> exact by decide
    · rcases hav with h | h <;> rw [h, herr] <;> exact ⟨by decide, by simp⟩
  · intro records env mr row hmem
    obtain ⟨p, r, hrow⟩ := processChromiumGo_mem env mr records 0 row hmem
    subst hrow
    simp only [show ∀ (rr : VariantRecord) (a : String) (b : Option String),
        (mkChromiumRow rr a b).detected_status = a from fun _ _ _ => rfl,
      show ∀ (rr : VariantRecord) (a : String) (b : Option String),
        (mkChromiumRow rr a b).error = b from fun _ _ _ => rfl]
    exact ⟨chromiumLoop_avail_mem (env p) r (mr + 1) 0 "BLOCKED" none (by simp),
      chromiumLoop_err_iff (env p) r (mr + 1) 0 "BLOCKED" none (by omega)⟩

/-- C9 witness: a blocked static row satisfies the static invariant, and
a chromium row from a run of navigation failures satisfies both the
five-value membership and the error-detail biconditional. -/
theorem C9_status_error_invariant_witness :
    ((c9wrow.detected_status = "IN_STOCK" ∨ c9wrow.detected_status = "OUT_OF_STOCK"
        ∨ c9wrow.detected_status = "BLOCKED" ∨ c9wrow.detected_status = "ERROR"
        ∨ c9wrow.detected_status = "UNKNOWN")
      ∧ (c9wrow.error.isSome
          ↔ (c9wrow.detected_status = "BLOCKED" ∨ c9wrow.detected_status = "ERROR")))
      ∧ ((c9crow.detected_status = "IN_STOCK" ∨ c9crow.detected_status = "OUT_OF_STOCK"
        ∨ c9crow.detected_status = "BLOCKED" ∨ c9crow.detected_status = "ERROR"
        ∨ c9crow.detected_status = "UNKNOWN")
      ∧ (c9crow.error.isSome ↔ ¬ c9crow.detected_status = "IN_STOCK")) :=
  ⟨C9_status_error_invariant.1 [c9rec] c9wenv 0 c9wrow (by decide),
   C9_status_error_invariant.2 [c9rec] c9cenv 0 c9crow (by decide)⟩

/-- C10: the running last-seen-colour table of the builder is keyed by
`listingUrl` and persists over the whole feed — for every feed and key it
equals the colour of the most recent earlier row of that key with an
explicit colour (so later explicit rows overwrite it); and a row whose
colour cell cleans to nothing adopts that value even when rows of other
listings are interleaved in between. -/
theorem C10_last_seen_colour_table :
    (∀ (rows : List RawRow) (key : String),
        dictGet (loadGo 1 none { idx := 1, dict := [], history := [], records := [] } rows).dict
            key
          = lastExplicitColour rows key)
      ∧ (∀ (pre : List RawRow) (row : RawRow) (c : String),
          clean_cell_value row.variation = none →
          lastExplicitColour pre (stripQueryFragment row.listing_url) = some c →
          (load_variants_from_excel (pre ++ [row])).getLast?.map (fun rec => rec.variation)
            = some (some c)) := by
  constructor
  · intro rows key
    rw [loadGo_dict key rows]
    rfl
  · intro pre row c hclean hlast
    have hdict : dictGet (loadGo 1 none
        { idx := 1, dict := [], history := [], records := [] } pre).dict
        (stripQueryFragment row.listing_url) = some c := by
      rw [loadGo_dict]
      exact hlast
    have hcne : ¬ c = "" :=
      lastExplicitAux_ne (stripQueryFragment row.listing_url) pre none c
        (by intro s hs; cases hs) hlast
    have hrecords : load_variants_from_excel (pre ++ [row])
        = (loadGo 1 none { idx := 1, dict := [], history := [], records := [] } pre).records
          ++ [buildRecord
              (loadGo 1 none { idx := 1, dict := [], history := [], records := [] } pre) row] := by
      show (loadGo 1 none { idx := 1, dict := [], history := [], records := [] }
          (pre ++ [row])).records = _
      rw [loadGo_append 1 pre [row]]
      rw [loadGo_cons_none]
      show (loadStep 1 (loadGo 1 none
          { idx := 1, dict := [], history := [], records := [] } pre) row).records = _
      rw [loadStep]
      have hidx : (loadGo 1 none
          { idx := 1, dict := [], history := [], records := [] } pre).idx = 1 + pre.length :=
        loadGo_idx pre _
      rw [if_neg (by omega)]
    rw [hrecords, List.getLast?_concat]
    simp only [Option.map_some', Option.some.injEq]
    show (resolveColour _ _ _ _ _ _ _).1 = some c
    exact resolveColour_adopt _ _ _ _ _ _ _ c hclean hdict hcne

/-- C10 witness: with rows of listings 77 and 88 interleaved, the table
entry for listing 77 is its most recent explicit colour, and a trailing
colour-less row of listing 77 adopts `"Teal Blue - Greekey"` (the second,
overwriting, explicit colour), not the first one. -/
theorem C10_last_seen_colour_table_witness :
    dictGet (loadGo 1 none { idx := 1, dict := [], history := [], records := [] } c10pre).dict
        "https://www.ebay.co.uk/itm/77"
      = lastExplicitColour c10pre "https://www.ebay.co.uk/itm/77"
      ∧ (load_variants_from_excel (c10pre ++ [c10row])).getLast?.map (fun rec => rec.variation)
          = some (some "Teal Blue - Greekey") :=
  ⟨C10_last_seen_colour_table.1 c10pre "https://www.ebay.co.uk/itm/77",
   C10_last_seen_colour_table.2 c10pre c10row "Teal Blue - Greekey" (by decide) (by decide)⟩
